import Mathlib

/-!
Shallow embedding of the track-alchemy-gen audio engine session layer:
the sample resolver (useTrackSamples), the audio context manager
(useAudioContext), the per-instrument signal-chain builder
(useInstrumentSetup), the track orchestrator (useTrackAudio) and the
level meter (useAudioMeter), together with theorems settling the
specification claims about them.

Numeric conventions: decibel values are embedded as `Int` (the
application only ever stores and compares them; `toString` /
`parseFloat` round-trip such values exactly), timestamps as `Nat`,
context identity tokens as `Nat`.  Meter arithmetic, which uses
`Math.sqrt`, is embedded over `ℝ`.
-/

namespace TrackAlchemy

/-- The fixed instrument set (`InstrumentType` in `types.ts`). -/
inductive InstrumentType
  | drums
  | bass
  | guitar
  | keys
deriving DecidableEq, Repr

/-- The lowercase identifier string of an instrument, as used in URLs
and storage keys. -/
def InstrumentType.idName : InstrumentType → String
  | .drums => "drums"
  | .bass => "bass"
  | .guitar => "guitar"
  | .keys => "keys"

/-- All four instruments, in the fixed iteration order of the
`instrumentsRef` record in `useTrackAudio.ts` (drums, bass, guitar,
keys). -/
def instrumentOrder : List InstrumentType :=
  [.drums, .bass, .guitar, .keys]

/-! ## Sample resolver (`useTrackSamples.ts` / `useSampleManager.ts`) -/

/-- A row of the `samples` table (`Sample` in `useSampleManager.ts`):
an uploaded sample with its instrument-type tag and creation
timestamp.  `created_at` is embedded as a numeric timestamp; JS
compares `new Date(created_at)` values, which orders valid timestamps
the same way. -/
structure Sample where
  name : String
  instrument_type : InstrumentType
  file_path : String
  created_at : Nat
deriving DecidableEq, Repr

/-- The value of `getSamples()`: it resolves with `{success: true,
data}` or, catching every failure internally, with `{success: false,
data: []}` — it never throws. -/
structure SamplesResult where
  success : Bool
  data : List Sample
deriving Repr

/-- The bundled default path – backtick-free rendering of the template
literal `/samples/` + instrument + `.mp3`. -/
def defaultSamplePath (it : InstrumentType) : String :=
  "/samples/" ++ it.idName ++ ".mp3"

/-- One step of the `reduce` in `getSampleUrlForInstrument`:
`new Date(current.created_at) > new Date(latest.created_at) ? current
: latest`. -/
def laterSample (latest current : Sample) : Sample :=
  if latest.created_at < current.created_at then current else latest

/-- `instrumentSamples.reduce(laterSample, instrumentSamples[0])`: the
JS `reduce` with an explicit initial value folds over the whole array,
the initial element included.  Empty input yields `none` (in the code
this branch is guarded by `instrumentSamples.length > 0`). -/
def pickLatest : List Sample → Option Sample
  | [] => none
  | s :: rest => some ((s :: rest).foldl laterSample s)

/-- `getSampleUrlForInstrument` from `useTrackSamples.ts`: prefer the
most recently uploaded sample tagged with the instrument type,
otherwise the bundled default path.  `resolveUrl` embeds the
collaborator `getSampleUrl` (total: it just builds a public URL).  The
`catch`-returns-`null` branch of the source is unreachable because
`getSamples` never rejects, so the embedding is total and never
returns `none`; the `Option` result type is kept because the source
signature is `Promise<string | null>`. -/
def getSampleUrlForInstrument (res : SamplesResult)
    (resolveUrl : String → String) (it : InstrumentType) : Option String :=
  if res.success = true ∧ 0 < res.data.length then
    match pickLatest (res.data.filter fun s => s.instrument_type = it) with
    | some latest => some (resolveUrl latest.file_path)
    | none => some (defaultSamplePath it)
  else
    some (defaultSamplePath it)

/-! ## Audio context manager (`useAudioContext.ts`, the revision with
bounded-retry reset)

The claims name line ranges of the middle revision of
`useAudioContext.ts` (the one whose `resetContext` retries context
creation up to three times with backoff); that revision is embedded
here.  `sessionStorage` is a single browser key-value store; the
context manager touches the keys `trackAlchemy_master_volume` and
`trackAlchemyState` only, so the embedding carries exactly those two
slots. -/

/-- The two `sessionStorage` slots the context manager reads and
writes.  `masterVolumePref` is the parsed numeric value under
`trackAlchemy_master_volume` (persisted dB values round-trip through
`toString` / `parseFloat` exactly); `trackStatePresent` records
whether a serialized record sits under `trackAlchemyState`. -/
structure ManagerStorage where
  masterVolumePref : Option Int
  trackStatePresent : Bool
deriving DecidableEq, Repr

/-- The context manager's shared state: the React `state` record of
`useAudioContext` merged with the refs that mirror it.  `context` and
`contextId` hold context identity tokens (`contextIdRef` stores
`toneContext.toString()`, which is distinct for distinct context
objects); `masterVolume` is the current Master Bus gain in dB
(`masterVolumeRef`, `none` embeds `null`); `initializing` is
`initializingRef.current`. -/
structure ManagerState where
  context : Option Nat
  contextId : Option Nat
  isStarted : Bool
  isLoaded : Bool
  error : Option String
  masterVolume : Option Int
  initializing : Bool
  storage : ManagerStorage
deriving DecidableEq, Repr

/-- Result of `resetContext`: the settled state, the boolean the
promise resolves with, and how many context-creation attempts
(`Tone.start(); Tone.loaded(); Tone.getContext()`) were performed —
`attempts = 0` would mean the call did no context work at all. -/
structure ResetResult where
  state : ManagerState
  ok : Bool
  attempts : Nat
deriving DecidableEq, Repr

/-- The retry loop of `resetContext` (`while (!success && attempts <
maxAttempts)` with `maxAttempts = 3`): `attemptOk k` tells whether the
k-th context creation yields a valid open context (1-indexed).
Returns the index of the first successful attempt within the bound,
if any. -/
def firstOkAttempt (attemptOk : Nat → Bool) : Nat → Nat → Option Nat
  | 0, _ => none
  | remaining + 1, k => if attemptOk k then some k else firstOkAttempt attemptOk remaining (k + 1)

/-- `resetContext` from `useAudioContext.ts` (bounded-retry revision),
big-step over one call.  `attemptOk` and `freshId` embed the
environment: whether the k-th creation attempt succeeds and the
identity token of the context it would create.  Faithful step order:
set `initializingRef`; mark `isLoaded` false and clear `error`;
dispose the master bus ref (`null` it); dispose the old context and
the Transport (no state fields change); run the retry loop — on the
successful attempt install the new context and a fresh Master Bus at
the default -12 dB and publish the new identity; remove the
`trackAlchemyState` key; if every attempt failed record the terminal
error and resolve `false`; in `finally` clear `initializingRef`.
Nothing in the body reads `initializing`, and the persisted
master-volume preference is not consulted. -/
def resetContext (s : ManagerState) (attemptOk : Nat → Bool) (freshId : Nat → Nat) :
    ResetResult :=
  let cleaned : ManagerState :=
    { s with isLoaded := false, error := none, masterVolume := none }
  match firstOkAttempt attemptOk 3 1 with
  | some k =>
      { state :=
          { context := some (freshId k)
            contextId := some (freshId k)
            isStarted := true
            isLoaded := true
            error := none
            masterVolume := some (-12)
            initializing := false
            storage := { cleaned.storage with trackStatePresent := false } }
        ok := true
        attempts := k }
  | none =>
      { state :=
          { cleaned with
              error := some "Failed to reset audio system after multiple attempts. Please refresh the page."
              initializing := false
              storage := { cleaned.storage with trackStatePresent := false } }
        ok := false
        attempts := 3 }

/-- `setMasterVolume` from `useAudioContext.ts`: if the master bus ref
exists, apply the dB value to it, persist it under
`trackAlchemy_master_volume`, and republish the state; otherwise do
nothing. -/
def setMasterVolume (s : ManagerState) (volume : Int) : ManagerState :=
  match s.masterVolume with
  | some _ =>
      { s with
          masterVolume := some volume
          storage := { s.storage with masterVolumePref := some volume } }
  | none => s

/-- Result of `startContext`: the settled state, the JS return value
(`none` embeds the `undefined` returned by the early
`if (state.isStarted) return;` path, `some true` / `some false` the
explicit returns), and the number of `Tone.start` activation attempts
performed (counting those of the reset it triggers on failure). -/
structure StartResult where
  state : ManagerState
  ret : Option Bool
  startAttempts : Nat
deriving DecidableEq, Repr

/-- `startContext` from `useAudioContext.ts` (bounded-retry revision):
if the context is already started, log and return immediately
(`undefined`, no further work); otherwise race `Tone.start()` against
a 5 s timeout (`startOk` embeds which side wins), on success mark the
state started and return `true`, on failure record an error, dispose
the context and fire `resetContext` (not awaited; its settled effects
are folded in), and return `false`. -/
def startContext (s : ManagerState) (startOk : Bool)
    (attemptOk : Nat → Bool) (freshId : Nat → Nat) : StartResult :=
  if s.isStarted then
    { state := s, ret := none, startAttempts := 0 }
  else if startOk then
    { state := { s with isStarted := true }, ret := some true, startAttempts := 1 }
  else
    let errored : ManagerState :=
      { s with error := some "Failed to start audio context. Please try again." }
    let r := resetContext errored attemptOk freshId
    { state := r.state, ret := some false, startAttempts := 1 + r.attempts }

/-! ## Signal chain builder (`useInstrumentSetup.ts`)

Audio nodes are embedded by the context identity token they were
created under; the gain node additionally carries its dB value.  A
wiring step `a.connect(b)` is recorded as an `Edge` holding the two
context identities and whether the target is the master bus passed
into the call. -/

/-- A plain audio node (player, oscillator, analyser, destination),
identified by the Session Context identity it was created under. -/
structure AudioNode where
  ctxId : Nat
deriving DecidableEq, Repr

/-- A `Tone.Volume` gain node: context identity plus its current gain
in dB. -/
structure VolumeNode where
  ctxId : Nat
  volumeDb : Int
deriving DecidableEq, Repr

/-- `loadingState` of an instrument track (`types.ts`). -/
inductive LoadingState
  | idle
  | loading
  | loaded
  | error
deriving DecidableEq, Repr

/-- The mutable `InstrumentTrack` record kept in `instrumentsRef`
(`types.ts` / `useTrackAudio.ts`).  `meterValue` lives in the meter
embedding, which is the only code that touches it. -/
structure InstrumentTrack where
  id : InstrumentType
  volume : Int
  player : Option AudioNode
  volumeNode : Option VolumeNode
  analyser : Option AudioNode
  samplePath : Option String
  loadingState : LoadingState
deriving DecidableEq, Repr

/-- One recorded `connect` call: the context identity of the source
node, the context identity of the target node, and whether the target
is the `masterVolume` argument of the enclosing `setupInstrument`
call (as opposed to an analyser, a gain node, or
`Tone.getDestination()`). -/
structure Edge where
  srcCtx : Nat
  dstCtx : Nat
  dstIsMasterArg : Bool
deriving DecidableEq, Repr

/-- The node trio `setupInstrument` creates synchronously right after
capturing `currentContext = Tone.getContext()`: the gain node (from
the track's restored volume), the analyser, and the player — all
constructed against that same ambient context. -/
structure ChainNodes where
  playerCtx : Nat
  volumeCtx : Nat
  volumeDb : Int
  analyserCtx : Nat
deriving DecidableEq, Repr

/-- The nodes as created by the synchronous phase of
`setupInstrument`: every node carries the setup-time context
identity. -/
def createdNodes (setupCtx : Nat) (volumeDb : Int) : ChainNodes :=
  { playerCtx := setupCtx, volumeCtx := setupCtx, volumeDb := volumeDb,
    analyserCtx := setupCtx }

/-- The `onload` connection step of `setupInstrument` (lines 126-172):
re-check `player.context !== currentContext || volumeNode.context !==
currentContext || analyser.context !== currentContext` against the
context captured at setup time; on mismatch hand over to
`handleLoadError` and connect nothing (`none`); otherwise wire player
→ gain → analyser and route the gain node into the `masterVolume`
argument when that argument exists and belongs to the captured
context, else into `Tone.getDestination()` — the destination of
whatever context is globally current when the callback runs
(`globalCtxAtLoad`). -/
def onloadConnect (setupCtx : Nat) (nodes : ChainNodes)
    (masterVolume : Option VolumeNode) (globalCtxAtLoad : Nat) :
    Option (List Edge) :=
  if nodes.playerCtx ≠ setupCtx ∨ nodes.volumeCtx ≠ setupCtx ∨ nodes.analyserCtx ≠ setupCtx then
    none
  else
    some
      ([{ srcCtx := nodes.playerCtx, dstCtx := nodes.volumeCtx, dstIsMasterArg := false },
        { srcCtx := nodes.volumeCtx, dstCtx := nodes.analyserCtx, dstIsMasterArg := false }] ++
        match masterVolume with
        | some m =>
            if m.ctxId = setupCtx then
              [{ srcCtx := nodes.volumeCtx, dstCtx := m.ctxId, dstIsMasterArg := true }]
            else
              [{ srcCtx := nodes.volumeCtx, dstCtx := globalCtxAtLoad, dstIsMasterArg := false }]
        | none =>
            [{ srcCtx := nodes.volumeCtx, dstCtx := globalCtxAtLoad, dstIsMasterArg := false }])

/-- The wiring performed by the fallback branch of `handleLoadError`:
all fallback nodes (oscillator, gain, analyser) are created from the
context that is globally current when the error callback runs, and the
gain node is routed into the master bus argument exactly when that
argument belongs to that same context, else into the current
destination. -/
def fallbackConnect (fallbackCtx : Nat) (masterVolume : Option VolumeNode) : List Edge :=
  [{ srcCtx := fallbackCtx, dstCtx := fallbackCtx, dstIsMasterArg := false },
   { srcCtx := fallbackCtx, dstCtx := fallbackCtx, dstIsMasterArg := false }] ++
    match masterVolume with
    | some m =>
        if m.ctxId = fallbackCtx then
          [{ srcCtx := fallbackCtx, dstCtx := m.ctxId, dstIsMasterArg := true }]
        else
          [{ srcCtx := fallbackCtx, dstCtx := fallbackCtx, dstIsMasterArg := false }]
    | none => [{ srcCtx := fallbackCtx, dstCtx := fallbackCtx, dstIsMasterArg := false }]

/-- The environment of one `setupInstrument` call: the value the
Sample Resolver would hand back if consulted, the identity of the
globally current context at setup time, whether the scheduled sample
load succeeds, and the identity of the globally current context at
the moment the load (or error) callback runs — a context reset in
flight between setup and callback makes `globalCtxAtCallback` differ
from `globalCtx`. -/
structure SetupEnv where
  resolved : Option String
  globalCtx : Nat
  loadOk : Bool
  globalCtxAtCallback : Nat
deriving Repr

/-- Result of one `setupInstrument` call, big-step to after its load
or error callback has settled: the updated instrument record, the
error slot after the call's `setError` effects (`errIn` is threaded
in), whether the call returned a chain object (non-null) to its
awaiting caller, whether it threw the `CONTEXT_MISMATCH` error, the
URL handed to `Tone.Player` (if any), and the `connect` edges
performed. -/
structure SetupResult where
  inst : InstrumentTrack
  errOut : Option String
  returnedChain : Bool
  threwMismatch : Bool
  usedUrl : Option String
  edges : List Edge
deriving Repr

/-- The settled effects of `handleLoadError` (lines 176-243): mark the
instrument `error`, keep the first error message (`setError(prev =>
prev || …)`), then build the fallback oscillator chain from the
context current at callback time and install its nodes on the
instrument. -/
def handleLoadError (inst : InstrumentTrack) (errIn : Option String)
    (masterVolume : Option VolumeNode) (env : SetupEnv) (usedUrl : String) :
    SetupResult :=
  let fbCtx := env.globalCtxAtCallback
  { inst :=
      { inst with
          loadingState := .error
          player := some { ctxId := fbCtx }
          volumeNode := some { ctxId := fbCtx, volumeDb := inst.volume }
          analyser := some { ctxId := fbCtx } }
    errOut := some (errIn.getD ("Failed to load " ++ inst.id.idName ++ " sample. Using fallback."))
    returnedChain := true
    threwMismatch := false
    usedUrl := some usedUrl
    edges := fallbackConnect fbCtx masterVolume }

/-- `setupInstrument` from `useInstrumentSetup.ts`, big-step over one
call with its load callback settled.  Faithful step order: mark the
instrument `loading`; take the stored `samplePath` if present,
otherwise consult the Sample Resolver and record its answer; with no
URL at all mark `error`, null the path, soft-set an error message and
return null; otherwise restore the track volume from the per
instrument `sessionStorage` key, capture the current context, compare
it against the `currentContextId` parameter (hard-set a mismatch
error and throw `CONTEXT_MISMATCH` if they differ), create the gain
node / analyser / player against the captured context and schedule
the load (the call itself returns the chain object at this point);
when the load settles run `onloadConnect` — falling back to
`handleLoadError` on load failure or on a detected connection-time
mismatch. -/
def setupInstrument (inst : InstrumentTrack) (storage : InstrumentType → Option Int)
    (masterVolume : Option VolumeNode) (currentContextId : Option Nat)
    (env : SetupEnv) (errIn : Option String) : SetupResult :=
  let inst := { inst with loadingState := .loading }
  let urlAndInst : Option String × InstrumentTrack :=
    match inst.samplePath with
    | some u => (some u, inst)
    | none => (env.resolved, { inst with samplePath := env.resolved })
  match urlAndInst.1 with
  | none =>
      { inst := { urlAndInst.2 with loadingState := .error, samplePath := none }
        errOut := some (errIn.getD ("No sample found for " ++ inst.id.idName ++ ". Using fallback."))
        returnedChain := false
        threwMismatch := false
        usedUrl := none
        edges := [] }
  | some url =>
      let inst := urlAndInst.2
      let restoredVolume := (storage inst.id).getD inst.volume
      let inst := { inst with volume := restoredVolume }
      let mismatch : Bool :=
        match currentContextId with
        | some cid => decide (cid ≠ env.globalCtx)
        | none => false
      if mismatch then
        { inst := { inst with loadingState := .error }
          errOut := some "Audio context mismatch detected. Please refresh the page."
          returnedChain := false
          threwMismatch := true
          usedUrl := none
          edges := [] }
      else
        let nodes := createdNodes env.globalCtx restoredVolume
        if env.loadOk then
          match onloadConnect env.globalCtx nodes masterVolume env.globalCtxAtCallback with
          | some es =>
              { inst :=
                  { inst with
                      loadingState := .loaded
                      player := some { ctxId := nodes.playerCtx }
                      volumeNode := some { ctxId := nodes.volumeCtx, volumeDb := nodes.volumeDb }
                      analyser := some { ctxId := nodes.analyserCtx }
                      samplePath := some url }
                errOut := errIn
                returnedChain := true
                threwMismatch := false
                usedUrl := some url
                edges := es }
          | none => handleLoadError inst errIn masterVolume env url
        else handleLoadError inst errIn masterVolume env url

/-- `setInstrumentVolume` from `useInstrumentSetup.ts`: always update
the instrument record's stored gain and persist it under the
`trackAlchemy_{id}_volume` key (braces here only name the id slot of
the key template); additionally apply it to the live gain node when
one exists. -/
def setInstrumentVolume (instruments : InstrumentType → InstrumentTrack)
    (storage : InstrumentType → Option Int) (instrumentId : InstrumentType)
    (volumeDb : Int) :
    (InstrumentType → InstrumentTrack) × (InstrumentType → Option Int) :=
  let inst := instruments instrumentId
  let updated :=
    { inst with
        volume := volumeDb
        volumeNode := inst.volumeNode.map fun n => { n with volumeDb := volumeDb } }
  (Function.update instruments instrumentId updated,
   Function.update storage instrumentId (some volumeDb))

/-- The per-instrument teardown both generation paths perform before
rebuilding (`useTrackAudio.ts`): stop/dispose the player, gain node
and analyser, null the three refs, and mark the instrument
`loading`. -/
def teardownInstrument (inst : InstrumentTrack) : InstrumentTrack :=
  { inst with
      player := none
      volumeNode := none
      analyser := none
      loadingState := .loading }

/-! ## Track orchestrator (`audio/useTrackAudio.ts`)

`generateTrack` is embedded big-step over one call with every
scheduled load callback settled.  The context manager's own state
(`isStarted`, and the fire-and-forget `resetContext` recovery of the
catch branch) lives in the `ManagerState` embedding above; the
orchestrator state carries everything `generateTrack` itself reads or
writes.  The single modelled throw source inside the guarded body is
the `CONTEXT_MISMATCH` error that `setupInstrument` rethrows; the
revision of `startContext` this code calls catches its own failures
and never rejects. -/

/-- `TrackSettings` from `types.ts`. -/
structure TrackSettings where
  genre : String
  mood : String
  bpm : Int
  key : String
  duration : Nat
deriving DecidableEq, Repr

/-- The orchestrator's shared state: the guard refs, the transport
tempo, the observable flags, the error slot, the instrument table and
the per-instrument volume storage keys. -/
structure OrchestratorState where
  generationInProgress : Bool
  playbackInProgress : Bool
  isPlaying : Bool
  isLoading : Bool
  error : Option String
  isTrackGenerated : Bool
  transportBpm : Int
  settings : TrackSettings
  instruments : InstrumentType → InstrumentTrack
  storage : InstrumentType → Option Int

/-- The default `instrumentsRef` table of `useTrackAudio.ts`: drums
-12 dB, bass -15 dB, guitar -18 dB, keys -20 dB, no nodes, no sample
path, `idle`. -/
def defaultInstrument (it : InstrumentType) : InstrumentTrack :=
  { id := it
    volume :=
      match it with
      | .drums => -12
      | .bass => -15
      | .guitar => -18
      | .keys => -20
    player := none
    volumeNode := none
    analyser := none
    samplePath := none
    loadingState := .idle }

/-- The `for … of Object.keys(instrumentsRef.current)` setup loop of
`generateTrack`: each instrument's `setupInstrument` is awaited in the
fixed order, successes (calls returning a chain object) are tallied,
and a thrown `CONTEXT_MISMATCH` aborts the rest of the loop.  Returns
the state after the loop, the success tally, and whether the loop
aborted by throwing. -/
def setupLoop (masterVolume : Option VolumeNode) (currentContextId : Option Nat)
    (env : InstrumentType → SetupEnv) :
    List InstrumentType → OrchestratorState → OrchestratorState × Nat × Bool
  | [], s => (s, 0, false)
  | i :: rest, s =>
      let r := setupInstrument (s.instruments i) s.storage masterVolume currentContextId
        (env i) s.error
      let s1 : OrchestratorState :=
        { s with
            instruments := Function.update s.instruments i r.inst
            error := r.errOut }
      if r.threwMismatch then (s1, 0, true)
      else
        let rec_result := setupLoop masterVolume currentContextId env rest s1
        (rec_result.1, (if r.returnedChain then 1 else 0) + rec_result.2.1, rec_result.2.2)

/-- `generateTrack` from `audio/useTrackAudio.ts`, big-step with
callbacks settled.  If the single-flight guard
`generationInProgressRef` is set, return at once with nothing
changed.  Otherwise set the guard and run the body: mark loading and
clear the error; stop playback if playing; apply the tempo and store
the settings; tear down every instrument chain and mark them all
`loading`; run the setup loop; if it threw, the catch branch records
the generation error (and fires the context-manager reset); otherwise
at least one success marks the track generated, zero successes record
the hard error; the `finally` clause clears `isLoading` and the guard
on every exit path. -/
def generateTrack (s : OrchestratorState) (settings : TrackSettings)
    (masterVolume : Option VolumeNode) (currentContextId : Option Nat)
    (env : InstrumentType → SetupEnv) : OrchestratorState :=
  if s.generationInProgress then s
  else
    let s0 : OrchestratorState := { s with generationInProgress := true }
    let s1 : OrchestratorState := { s0 with isLoading := true, error := none }
    let s2 : OrchestratorState := if s1.isPlaying then { s1 with isPlaying := false } else s1
    let s3 : OrchestratorState := { s2 with transportBpm := settings.bpm, settings := settings }
    let s4 : OrchestratorState :=
      { s3 with instruments := fun i => teardownInstrument (s3.instruments i) }
    let looped := setupLoop masterVolume currentContextId env instrumentOrder s4
    let s5 : OrchestratorState :=
      if looped.2.2 then
        { looped.1 with error := some "Failed to generate track. Please try again." }
      else if 0 < looped.2.1 then
        { looped.1 with isTrackGenerated := true }
      else
        { looped.1 with error := some "Failed to load any instruments. Please try again." }
    { s5 with isLoading := false, generationInProgress := false }

/-! ## Level meter (`useAudioMeter.ts`, the revision with the 0.5
publish threshold and the 400 multiplier)

The claims name lines 149-194, the revision whose per-instrument tick
reads the analyser waveform, converts it to an RMS amplitude, scales
by 400, clamps to 0..100 and publishes under a change threshold.
`Math.sqrt` on the waveform samples is embedded over `ℝ`. -/

/-- What the meter tick sees of one instrument: the waveform buffer an
`analyser.getValue()` read returns (`none` embeds a torn-down or
not-yet-built tap) and the last published `meterValue`. -/
structure MeterInstrument where
  analyser : Option (List ℝ)
  meterValue : ℝ

/-- The RMS amplitude of a waveform buffer:
`Math.sqrt(waveform.reduce((sum, val) => sum + val * val, 0) /
waveform.length)`. -/
noncomputable def rmsOfWaveform (w : List ℝ) : ℝ :=
  Real.sqrt ((w.map fun v => v * v).sum / w.length)

/-- The display value: `Math.min(100, Math.max(0, rms * 400))`. -/
noncomputable def meterValueOfWaveform (w : List ℝ) : ℝ :=
  min 100 (max 0 (rmsOfWaveform w * 400))

/-- One instrument's step of the 50 ms meter interval
(`startMeterMonitoring`, lines 153-193): with a live analyser compute
the clamped scaled RMS and publish it only when
`Math.abs(currentValue - meterValue) > 0.5 || (meterValue < 1 &&
currentValue > 0)`; with no analyser reset the published value to 0
exactly when it is positive. -/
noncomputable def meterTick (inst : MeterInstrument) : MeterInstrument :=
  match inst.analyser with
  | some w =>
      let mv := meterValueOfWaveform w
      if (1 : ℝ) / 2 < |inst.meterValue - mv| ∨ (mv < 1 ∧ 0 < inst.meterValue) then
        { inst with meterValue := mv }
      else inst
  | none =>
      if 0 < inst.meterValue then { inst with meterValue := 0 } else inst

/-! ## Concrete scenarios -/

/-- The reset-straddling build of claim C1: `setupInstrument` for the
bass track starts while the Session Context identity is 0 (the
orchestrator passed `currentContextId = "0"`, the master bus prop is
not available), a context reset switches the global identity to 1
while the sample loads, and the load then completes — so the `onload`
connection step runs with the global context at identity 1 while every
chain node was created under identity 0. -/
def straddleSetupResult : SetupResult :=
  setupInstrument
    { id := .bass, volume := -15, player := none, volumeNode := none, analyser := none,
      samplePath := some "/samples/bass.mp3", loadingState := .idle }
    (fun _ => none) none (some 0)
    { resolved := none, globalCtx := 0, loadOk := true, globalCtxAtCallback := 1 } none

/-- The all-loads-fail generation run of claim C5: starting from the
initial not-generated state, every instrument resolves its bundled
sample URL, every scheduled load then fails, and each fallback
oscillator chain is built (context identity stable at 0
throughout). -/
def allLoadsFailRun : OrchestratorState :=
  generateTrack
    { generationInProgress := false
      playbackInProgress := false
      isPlaying := false
      isLoading := false
      error := none
      isTrackGenerated := false
      transportBpm := 120
      settings := { genre := "rock", mood := "energetic", bpm := 120, key := "C", duration := 16 }
      instruments := defaultInstrument
      storage := fun _ => none }
    { genre := "jazz", mood := "dark", bpm := 90, key := "D", duration := 16 }
    (some { ctxId := 0, volumeDb := -12 }) (some 0)
    (fun i =>
      { resolved := some ("/samples/" ++ i.idName ++ ".mp3")
        globalCtx := 0
        loadOk := false
        globalCtxAtCallback := 0 })

/-! ## Theorems -/

/-- `firstOkAttempt` never returns an index below the one it started
from. -/
theorem firstOkAttempt_ge (f : Nat → Bool) :
    ∀ (n k j : Nat), firstOkAttempt f n k = some j → k ≤ j := by
  intro n
  induction n with
  | zero => intro k j h; simp [firstOkAttempt] at h
  | succ n ih =>
      intro k j h
      unfold firstOkAttempt at h
      split at h
      · simp only [Option.some.injEq] at h
        omega
      · exact (Nat.le_succ k).trans (ih (k + 1) j h)

/-- Claim C7: calling `startContext` when the context is already
started returns immediately — the state is left completely unchanged,
no activation attempt is performed, and the call reports no failure
(it returns the bare `undefined` of the early-return path and records
no error) — and a second call in that state behaves identically, so
the operation is an idempotent no-op. -/
theorem startContext_idempotent_when_started
    (s : ManagerState) (ok₁ ok₂ : Bool) (f₁ f₂ : Nat → Bool) (g₁ g₂ : Nat → Nat)
    (h : s.isStarted = true) :
    startContext s ok₁ f₁ g₁ = { state := s, ret := none, startAttempts := 0 } ∧
    startContext (startContext s ok₁ f₁ g₁).state ok₂ f₂ g₂ =
      { state := s, ret := none, startAttempts := 0 } := by
  constructor
  · simp [startContext, h]
  · simp [startContext, h]

/-- Witness for C7 at a concrete started state. -/
theorem startContext_idempotent_when_started_witness :
    startContext ⟨some 0, some 0, true, true, none, some (-12), false, ⟨none, false⟩⟩
        true (fun _ => true) (fun k => k) =
      { state := ⟨some 0, some 0, true, true, none, some (-12), false, ⟨none, false⟩⟩,
        ret := none, startAttempts := 0 } ∧
    startContext (startContext
        ⟨some 0, some 0, true, true, none, some (-12), false, ⟨none, false⟩⟩
        true (fun _ => true) (fun k => k)).state false (fun _ => false) (fun k => k + 1) =
      { state := ⟨some 0, some 0, true, true, none, some (-12), false, ⟨none, false⟩⟩,
        ret := none, startAttempts := 0 } :=
  startContext_idempotent_when_started _ true false (fun _ => true) (fun _ => false)
    (fun k => k) (fun k => k + 1) rfl

/-- Counterexample to claim C3: `resetContext` issued while another
reset is in flight (the `initializingRef` guard flag is already set)
is not rejected — it performs a context-creation attempt, installs a
new context identity and resolves `true`, exactly as it would with
the flag clear.  The body of `resetContext` never reads the flag; only
the mount-time initialization effect does. -/
theorem resetContext_overlap_executes_counterexample :
    (ManagerState.initializing
        ⟨some 0, some 0, true, true, none, some (-12), true, ⟨some (-30), true⟩⟩ = true) ∧
    resetContext ⟨some 0, some 0, true, true, none, some (-12), true, ⟨some (-30), true⟩⟩
        (fun _ => true) (fun _ => 7) =
      { state := ⟨some 7, some 7, true, true, none, some (-12), false, ⟨some (-30), false⟩⟩,
        ok := true, attempts := 1 } := by
  constructor
  · rfl
  · rfl

/-- Claim C3 as amended: `resetContext` sets the `initializingRef`
guard flag for its duration and always clears it on exit, but never
consults it — its outcome is identical whether or not another reset
is already in flight, and every call performs at least one
context-creation attempt instead of being rejected. -/
theorem resetContext_guard_amended (s : ManagerState) (f : Nat → Bool) (g : Nat → Nat) :
    resetContext { s with initializing := true } f g =
      resetContext { s with initializing := false } f g ∧
    (resetContext s f g).state.initializing = false ∧
    1 ≤ (resetContext s f g).attempts := by
  refine ⟨?_, ?_, ?_⟩
  · unfold resetContext
    cases h : firstOkAttempt f 3 1 <;> simp
  · unfold resetContext
    cases h : firstOkAttempt f 3 1 <;> simp
  · unfold resetContext
    cases h : firstOkAttempt f 3 1 with
    | none => simp
    | some k => simpa using firstOkAttempt_ge f 3 1 k h

/-- Counterexample to claim C4: starting from an initialized manager,
`setMasterVolume (-30)` persists the preference, but a subsequent
successful `resetContext` initializes the new Master Bus to the
default -12 dB, not to the persisted -30 dB. -/
theorem resetContext_default_volume_counterexample :
    (setMasterVolume ⟨some 0, some 0, true, true, none, some (-12), false, ⟨none, true⟩⟩
        (-30)).storage.masterVolumePref = some (-30) ∧
    (resetContext
        (setMasterVolume ⟨some 0, some 0, true, true, none, some (-12), false, ⟨none, true⟩⟩
          (-30)) (fun _ => true) (fun _ => 5)).ok = true ∧
    (resetContext
        (setMasterVolume ⟨some 0, some 0, true, true, none, some (-12), false, ⟨none, true⟩⟩
          (-30)) (fun _ => true) (fun _ => 5)).state.masterVolume = some (-12) ∧
    (some (-12) : Option Int) ≠ some (-30) := by
  refine ⟨rfl, rfl, rfl, by decide⟩

/-- Claim C4 as amended: after every successful `resetContext` call
the newly created Master Bus carries the default -12 dB; the
persisted master-volume preference is kept unchanged in storage but is
not reapplied by the reset (only the initialization path restores
it). -/
theorem resetContext_master_default_amended (s : ManagerState)
    (f : Nat → Bool) (g : Nat → Nat) (h : (resetContext s f g).ok = true) :
    (resetContext s f g).state.masterVolume = some (-12) ∧
    (resetContext s f g).state.storage.masterVolumePref = s.storage.masterVolumePref := by
  unfold resetContext at h ⊢
  cases hfa : firstOkAttempt f 3 1 with
  | none => rw [hfa] at h; simp at h
  | some k => simp

/-- Witness for the amended C4 at a concrete state whose reset
succeeds on the first attempt. -/
theorem resetContext_master_default_amended_witness :
    (resetContext ⟨some 0, some 0, true, true, none, some (-12), false, ⟨some (-30), true⟩⟩
        (fun _ => true) (fun _ => 5)).state.masterVolume = some (-12) ∧
    (resetContext ⟨some 0, some 0, true, true, none, some (-12), false, ⟨some (-30), true⟩⟩
        (fun _ => true) (fun _ => 5)).state.storage.masterVolumePref =
      (ManagerState.storage
        ⟨some 0, some 0, true, true, none, some (-12), false, ⟨some (-30), true⟩⟩).masterVolumePref :=
  resetContext_master_default_amended _ _ _ rfl

/-- Each comparison step of the reduce yields one of its two
arguments. -/
theorem laterSample_cases (a b : Sample) : laterSample a b = a ∨ laterSample a b = b := by
  unfold laterSample
  split
  · right; rfl
  · left; rfl

/-- The reduce returns its seed or a list element. -/
theorem foldl_laterSample_mem (l : List Sample) :
    ∀ a : Sample, l.foldl laterSample a = a ∨ l.foldl laterSample a ∈ l := by
  induction l with
  | nil => intro a; left; rfl
  | cons b t ih =>
      intro a
      simp only [List.foldl_cons]
      rcases ih (laterSample a b) with h | h
      · rw [h]
        rcases laterSample_cases a b with h2 | h2
        · left; exact h2
        · right; rw [h2]; exact List.mem_cons_self b t
      · right; exact List.mem_cons_of_mem b h

/-- The reduce result dominates the seed and every list element in
creation timestamp. -/
theorem foldl_laterSample_ge (l : List Sample) :
    ∀ a : Sample, a.created_at ≤ (l.foldl laterSample a).created_at ∧
      ∀ t ∈ l, t.created_at ≤ (l.foldl laterSample a).created_at := by
  induction l with
  | nil => intro a; exact ⟨le_refl _, by simp⟩
  | cons b t ih =>
      intro a
      have hab : a.created_at ≤ (laterSample a b).created_at ∧
          b.created_at ≤ (laterSample a b).created_at := by
        unfold laterSample
        split <;> constructor <;> omega
      obtain ⟨h1, h2⟩ := ih (laterSample a b)
      simp only [List.foldl_cons]
      refine ⟨le_trans hab.1 h1, ?_⟩
      intro x hx
      rcases List.mem_cons.mp hx with rfl | hx
      · exact le_trans hab.2 h1
      · exact h2 x hx

/-- `pickLatest` returns a member of maximal creation timestamp. -/
theorem pickLatest_spec (l : List Sample) (b : Sample) (h : pickLatest l = some b) :
    b ∈ l ∧ ∀ t ∈ l, t.created_at ≤ b.created_at := by
  cases l with
  | nil => simp [pickLatest] at h
  | cons s rest =>
      simp only [pickLatest, Option.some.injEq] at h
      subst h
      refine ⟨?_, fun t ht => (foldl_laterSample_ge (s :: rest) s).2 t ht⟩
      rcases foldl_laterSample_mem (s :: rest) s with h | h
      · rw [h]; exact List.mem_cons_self s rest
      · exact h

/-- Claim C8: when the sample listing succeeds and contains at least
one sample tagged with the instrument type, `getSampleUrlForInstrument`
returns the resolved URL of a tagged sample whose creation timestamp
is maximal among the tagged ones; otherwise (listing failed, or no
sample carries the tag) it returns the bundled default path
`/samples/` + instrument + `.mp3`. -/
theorem getSampleUrl_latest_or_default (res : SamplesResult)
    (resolveUrl : String → String) (it : InstrumentType) :
    (res.success = true →
      (∃ s ∈ res.data, s.instrument_type = it) →
      ∃ b ∈ res.data, b.instrument_type = it ∧
        getSampleUrlForInstrument res resolveUrl it = some (resolveUrl b.file_path) ∧
        ∀ t ∈ res.data, t.instrument_type = it → t.created_at ≤ b.created_at) ∧
    ((res.success = false ∨ ∀ s ∈ res.data, ¬ s.instrument_type = it) →
      getSampleUrlForInstrument res resolveUrl it = some (defaultSamplePath it)) := by
  constructor
  · rintro hs ⟨s, hmem, hty⟩
    have hlen : 0 < res.data.length := List.length_pos.mpr (List.ne_nil_of_mem hmem)
    have hfmem : s ∈ res.data.filter fun x => x.instrument_type = it := by
      simp [List.mem_filter, hmem, hty]
    have hfne : res.data.filter (fun x => x.instrument_type = it) ≠ [] :=
      List.ne_nil_of_mem hfmem
    cases hpl : pickLatest (res.data.filter fun x => x.instrument_type = it) with
    | none =>
        cases hcl : res.data.filter fun x => x.instrument_type = it with
        | nil => exact absurd hcl hfne
        | cons a t => rw [hcl] at hpl; simp [pickLatest] at hpl
    | some b =>
        obtain ⟨hbmem, hbmax⟩ :=
          pickLatest_spec (res.data.filter fun x => x.instrument_type = it) b hpl
        have hbdata : b ∈ res.data ∧ b.instrument_type = it := by
          simpa using List.mem_filter.mp hbmem
        refine ⟨b, hbdata.1, hbdata.2, ?_, ?_⟩
        · unfold getSampleUrlForInstrument
          rw [if_pos ⟨hs, hlen⟩, hpl]
        · intro t htmem htty
          exact hbmax t (by simp [List.mem_filter, htmem, htty])
  · intro hcase
    unfold getSampleUrlForInstrument
    rcases hcase with hfail | hnone
    · rw [if_neg]
      rintro ⟨h1, _⟩
      rw [hfail] at h1
      exact Bool.false_ne_true h1
    · by_cases hcond : res.success = true ∧ 0 < res.data.length
      · rw [if_pos hcond]
        have hfe : res.data.filter (fun x => x.instrument_type = it) = [] := by
          rw [List.filter_eq_nil_iff]
          intro a ha
          simpa using hnone a ha
        rw [hfe]
        rfl
      · rw [if_neg hcond]

/-- Witness for C8: two uploaded bass samples; the later one (timestamp
9) wins. -/
theorem getSampleUrl_latest_or_default_witness :
    ∃ b ∈ [(⟨"a", InstrumentType.bass, "a.mp3", 5⟩ : Sample),
           (⟨"b", InstrumentType.bass, "b.mp3", 9⟩ : Sample)],
      b.instrument_type = InstrumentType.bass ∧
      getSampleUrlForInstrument
          ⟨true, [⟨"a", .bass, "a.mp3", 5⟩, ⟨"b", .bass, "b.mp3", 9⟩]⟩
          (fun p => "url:" ++ p) .bass = some ("url:" ++ b.file_path) ∧
      ∀ t ∈ [(⟨"a", InstrumentType.bass, "a.mp3", 5⟩ : Sample),
             (⟨"b", InstrumentType.bass, "b.mp3", 9⟩ : Sample)],
        t.instrument_type = InstrumentType.bass → t.created_at ≤ b.created_at :=
  (getSampleUrl_latest_or_default
      ⟨true, [⟨"a", .bass, "a.mp3", 5⟩, ⟨"b", .bass, "b.mp3", 9⟩]⟩
      (fun p => "url:" ++ p) .bass).1 rfl
    ⟨⟨"a", .bass, "a.mp3", 5⟩, by simp, rfl⟩

/-- Claim C1, evaluated at the failing input (see
`straddleSetupResult`): when a build straddles a context reset, the
connection-time check compares the player, gain node and analyser
against the context captured at the start of `setupInstrument` — the
very context those nodes were created from — so no mismatch is
detected, the chain is not discarded (it is marked `loaded`), and the
identity-0 gain node is wired into the identity-1 destination: an edge
between two different context identities.  The claimed
detect-and-abort behaviour does not happen. -/
theorem straddle_mismatch_not_detected :
    straddleSetupResult.threwMismatch = false ∧
    straddleSetupResult.inst.loadingState = .loaded ∧
    straddleSetupResult.edges =
      [{ srcCtx := 0, dstCtx := 0, dstIsMasterArg := false },
       { srcCtx := 0, dstCtx := 0, dstIsMasterArg := false },
       { srcCtx := 0, dstCtx := 1, dstIsMasterArg := false }] ∧
    (∃ e ∈ straddleSetupResult.edges, ¬ e.srcCtx = e.dstCtx) := by
  refine ⟨rfl, rfl, rfl, ?_⟩
  exact ⟨{ srcCtx := 0, dstCtx := 1, dstIsMasterArg := false }, by decide, by decide⟩

/-- Claim C10: the rebuild consults the Sample Resolver only when the
stored `samplePath` is empty.  With a recorded path `p` the whole
outcome of `setupInstrument` is independent of whatever the resolver
would return, the record keeps the exact path `p`, and any URL handed
to the player is `p` itself; with no recorded path the resolver's
answer becomes both the stored path and the loaded URL. -/
theorem setupInstrument_path_authoritative
    (inst : InstrumentTrack) (storage : InstrumentType → Option Int)
    (mv : Option VolumeNode) (cid : Option Nat) (env : SetupEnv) (errIn : Option String) :
    (∀ p, inst.samplePath = some p →
      (∀ r, setupInstrument inst storage mv cid { env with resolved := r } errIn =
            setupInstrument inst storage mv cid env errIn) ∧
      (setupInstrument inst storage mv cid env errIn).inst.samplePath = some p ∧
      (∀ u, (setupInstrument inst storage mv cid env errIn).usedUrl = some u → u = p)) ∧
    (inst.samplePath = none →
      (setupInstrument inst storage mv cid env errIn).inst.samplePath = env.resolved ∧
      ∀ u, (setupInstrument inst storage mv cid env errIn).usedUrl = some u →
        env.resolved = some u) := by
  constructor
  · intro p hpath
    refine ⟨?_, ?_, ?_⟩
    · intro r
      simp only [setupInstrument, hpath, handleLoadError]
    · simp only [setupInstrument, hpath, handleLoadError]
      split
      · rfl
      · split
        · split
          · rfl
          · rfl
        · rfl
    · intro u
      simp only [setupInstrument, hpath, handleLoadError]
      split
      · simp
      · split
        · split
          · simp +contextual
          · simp +contextual
        · simp +contextual
  · intro hpath
    cases hres : env.resolved with
    | none =>
        constructor
        · simp [setupInstrument, hpath, hres]
        · intro u
          simp [setupInstrument, hpath, hres]
    | some q =>
        constructor
        · simp only [setupInstrument, hpath, hres, handleLoadError]
          split
          · rfl
          · split
            · split
              · rfl
              · rfl
            · rfl
        · intro u
          simp only [setupInstrument, hpath, hres, handleLoadError]
          split
          · simp
          · split
            · split
              · simp +contextual
              · simp +contextual
            · simp +contextual

/-- Witness for C10 at a bass track with a recorded sample path and a
resolver that would hand back a different, newer upload. -/
theorem setupInstrument_path_authoritative_witness :
    (∀ r, setupInstrument
        { id := .bass, volume := -15, player := none, volumeNode := none, analyser := none,
          samplePath := some "saved.mp3", loadingState := .idle }
        (fun _ => none) none none
        { resolved := r, globalCtx := 0, loadOk := true, globalCtxAtCallback := 0 } none =
      setupInstrument
        { id := .bass, volume := -15, player := none, volumeNode := none, analyser := none,
          samplePath := some "saved.mp3", loadingState := .idle }
        (fun _ => none) none none
        { resolved := some "newer-upload.mp3", globalCtx := 0, loadOk := true,
          globalCtxAtCallback := 0 } none) ∧
    (setupInstrument
        { id := .bass, volume := -15, player := none, volumeNode := none, analyser := none,
          samplePath := some "saved.mp3", loadingState := .idle }
        (fun _ => none) none none
        { resolved := some "newer-upload.mp3", globalCtx := 0, loadOk := true,
          globalCtxAtCallback := 0 } none).inst.samplePath = some "saved.mp3" ∧
    (∀ u, (setupInstrument
        { id := .bass, volume := -15, player := none, volumeNode := none, analyser := none,
          samplePath := some "saved.mp3", loadingState := .idle }
        (fun _ => none) none none
        { resolved := some "newer-upload.mp3", globalCtx := 0, loadOk := true,
          globalCtxAtCallback := 0 } none).usedUrl = some u → u = "saved.mp3") :=
  (setupInstrument_path_authoritative
      { id := .bass, volume := -15, player := none, volumeNode := none, analyser := none,
        samplePath := some "saved.mp3", loadingState := .idle }
      (fun _ => none) none none
      { resolved := some "newer-upload.mp3", globalCtx := 0, loadOk := true,
        globalCtxAtCallback := 0 } none).1 "saved.mp3" rfl

/-- Claim C6: after `setInstrumentVolume id db`, a rebuild of that
instrument's chain (teardown followed by `setupInstrument`, which
restores the stored value from the per-instrument storage key before
creating its nodes) initializes the new gain node with `db`, whatever
the instrument's original default volume was.  The hypotheses state
that the instrument table is keyed consistently, that the setup-time
context matches the orchestrator's identity token (no mismatch
abort), and that a sample URL is available (recorded or freshly
resolvable), so that the rebuild actually produces a chain. -/
theorem setInstrumentVolume_persists_across_rebuild
    (instruments : InstrumentType → InstrumentTrack) (storage : InstrumentType → Option Int)
    (instrumentId : InstrumentType) (db : Int) (mv : Option VolumeNode) (cid : Option Nat)
    (env : SetupEnv) (errIn : Option String)
    (hid : (instruments instrumentId).id = instrumentId)
    (hctx : cid = none ∨ cid = some env.globalCtx)
    (hurl : ¬ (instruments instrumentId).samplePath = none ∨ ¬ env.resolved = none) :
    ∃ n : VolumeNode,
      (setupInstrument
          (teardownInstrument
            ((setInstrumentVolume instruments storage instrumentId db).1 instrumentId))
          (setInstrumentVolume instruments storage instrumentId db).2
          mv cid env errIn).inst.volumeNode = some n ∧
      n.volumeDb = db := by
  have hupd1 : (setInstrumentVolume instruments storage instrumentId db).1 instrumentId =
      { instruments instrumentId with
          volume := db
          volumeNode := (instruments instrumentId).volumeNode.map
            fun n => { n with volumeDb := db } } := by
    simp [setInstrumentVolume]
  have hupd2 : ∀ i, (setInstrumentVolume instruments storage instrumentId db).2 i =
      Function.update storage instrumentId (some db) i := fun _ => rfl
  rw [hupd1]
  cases hsp : (instruments instrumentId).samplePath with
  | some p =>
      simp only [setupInstrument, teardownInstrument, handleLoadError, hsp, hid, hupd2,
        Function.update_same]
      split
      · rcases hctx with rfl | rfl <;> simp_all
      · split
        · split
          · exact ⟨_, rfl, rfl⟩
          · exact ⟨_, rfl, rfl⟩
        · exact ⟨_, rfl, rfl⟩
  | none =>
      cases hres : env.resolved with
      | none =>
          rcases hurl with h | h
          · exact absurd hsp h
          · exact absurd hres h
      | some q =>
          simp only [setupInstrument, teardownInstrument, handleLoadError, hsp, hres, hid, hupd2,
            Function.update_same]
          split
          · rcases hctx with rfl | rfl <;> simp_all
          · split
            · split
              · exact ⟨_, rfl, rfl⟩
              · exact ⟨_, rfl, rfl⟩
            · exact ⟨_, rfl, rfl⟩

/-- Witness for C6: bass (default -15 dB) set to -20 dB, then rebuilt;
the fresh gain node reads -20 dB. -/
theorem setInstrumentVolume_persists_across_rebuild_witness :
    ∃ n : VolumeNode,
      (setupInstrument
          (teardownInstrument
            ((setInstrumentVolume defaultInstrument (fun _ => none) .bass (-20)).1 .bass))
          (setInstrumentVolume defaultInstrument (fun _ => none) .bass (-20)).2
          none none
          { resolved := some "/samples/bass.mp3", globalCtx := 0, loadOk := true,
            globalCtxAtCallback := 0 } none).inst.volumeNode = some n ∧
      n.volumeDb = -20 :=
  setInstrumentVolume_persists_across_rebuild defaultInstrument (fun _ => none) .bass (-20)
    none none
    { resolved := some "/samples/bass.mp3", globalCtx := 0, loadOk := true,
      globalCtxAtCallback := 0 } none
    rfl (Or.inl rfl) (Or.inr (by simp))

/-- Claim C2: a `generateTrack` call arriving while the single-flight
guard is set returns at once with the whole orchestrator state —
instrument table, transport tempo, error slot, flags — untouched; and
from an idle state, whatever the environment does (including a
`CONTEXT_MISMATCH` thrown out of a setup call, which exits through the
catch branch), the guard flag is clear again when the call finishes,
so a failed generation cannot permanently block future ones. -/
theorem generateTrack_single_flight
    (s : OrchestratorState) (settings : TrackSettings) (mv : Option VolumeNode)
    (cid : Option Nat) (env : InstrumentType → SetupEnv) :
    (s.generationInProgress = true → generateTrack s settings mv cid env = s) ∧
    (s.generationInProgress = false →
      (generateTrack s settings mv cid env).generationInProgress = false) := by
  constructor
  · intro h
    simp [generateTrack, h]
  · intro h
    simp [generateTrack, h]

/-- Witness for C2: a busy-state call is the identity, and an idle
call whose first setup throws `CONTEXT_MISMATCH` (stale identity
token 0 against global context 5) still ends with the guard
cleared. -/
theorem generateTrack_single_flight_witness :
    generateTrack
        { generationInProgress := true, playbackInProgress := false, isPlaying := false,
          isLoading := false, error := none, isTrackGenerated := false, transportBpm := 120,
          settings := { genre := "rock", mood := "energetic", bpm := 120, key := "C", duration := 16 },
          instruments := defaultInstrument, storage := fun _ => none }
        { genre := "jazz", mood := "dark", bpm := 90, key := "D", duration := 16 }
        none (some 0)
        (fun i => ⟨some (defaultSamplePath i), 5, true, 5⟩) =
      { generationInProgress := true, playbackInProgress := false, isPlaying := false,
        isLoading := false, error := none, isTrackGenerated := false, transportBpm := 120,
        settings := { genre := "rock", mood := "energetic", bpm := 120, key := "C", duration := 16 },
        instruments := defaultInstrument, storage := fun _ => none } ∧
    (generateTrack
        { generationInProgress := false, playbackInProgress := false, isPlaying := false,
          isLoading := false, error := none, isTrackGenerated := false, transportBpm := 120,
          settings := { genre := "rock", mood := "energetic", bpm := 120, key := "C", duration := 16 },
          instruments := defaultInstrument, storage := fun _ => none }
        { genre := "jazz", mood := "dark", bpm := 90, key := "D", duration := 16 }
        none (some 0)
        (fun i => ⟨some (defaultSamplePath i), 5, true, 5⟩)).generationInProgress = false :=
  ⟨(generateTrack_single_flight _ _ _ _ _).1 rfl,
   (generateTrack_single_flight _ _ _ _ _).2 rfl⟩

/-- When no instrument in the list has a recorded sample path and the
resolver has no URL for any of them, the setup loop produces zero
chains, never throws, leaves `isTrackGenerated` alone, and leaves
every visited instrument in the `error` loading state. -/
theorem setupLoop_no_url (mv : Option VolumeNode) (cid : Option Nat)
    (env : InstrumentType → SetupEnv) :
    ∀ (l : List InstrumentType) (s : OrchestratorState),
      (∀ i ∈ l, (s.instruments i).samplePath = none ∧ (env i).resolved = none) →
      (setupLoop mv cid env l s).2.1 = 0 ∧
      (setupLoop mv cid env l s).2.2 = false ∧
      (setupLoop mv cid env l s).1.isTrackGenerated = s.isTrackGenerated ∧
      ∀ i, ((setupLoop mv cid env l s).1.instruments i).loadingState =
        if i ∈ l then LoadingState.error else (s.instruments i).loadingState := by
  intro l
  induction l with
  | nil =>
      intro s hl
      exact ⟨rfl, rfl, rfl, fun i => by simp [setupLoop]⟩
  | cons a rest ih =>
      intro s hl
      obtain ⟨hsp, hres⟩ := hl a (List.mem_cons_self a rest)
      have hr : setupInstrument (s.instruments a) s.storage mv cid (env a) s.error =
          { inst :=
              { id := (s.instruments a).id, volume := (s.instruments a).volume,
                player := (s.instruments a).player, volumeNode := (s.instruments a).volumeNode,
                analyser := (s.instruments a).analyser, samplePath := none,
                loadingState := LoadingState.error }
            errOut := some ((s.error).getD
              ("No sample found for " ++ (s.instruments a).id.idName ++ ". Using fallback."))
            returnedChain := false
            threwMismatch := false
            usedUrl := none
            edges := [] } := by
        simp [setupInstrument, hsp, hres]
      have hprem : ∀ j ∈ rest,
          ((({ s with
              instruments := Function.update s.instruments a
                { id := (s.instruments a).id, volume := (s.instruments a).volume,
                  player := (s.instruments a).player, volumeNode := (s.instruments a).volumeNode,
                  analyser := (s.instruments a).analyser, samplePath := none,
                  loadingState := LoadingState.error }
              error := some ((s.error).getD
                ("No sample found for " ++ (s.instruments a).id.idName ++ ". Using fallback."))
            } : OrchestratorState)).instruments j).samplePath = none ∧ (env j).resolved = none := by
        intro j hj
        refine ⟨?_, (hl j (List.mem_cons_of_mem a hj)).2⟩
        by_cases hja : j = a
        · subst hja
          simp [Function.update_same]
        · simpa [Function.update_noteq hja] using (hl j (List.mem_cons_of_mem a hj)).1
      obtain ⟨h1, h2, h3, h4⟩ := ih _ hprem
      simp [setupLoop, hr]
      refine ⟨by simpa using h1, by simpa using h2, by simpa using h3, ?_⟩
      intro i
      have h4i := h4 i
      rw [h4i]
      by_cases hia : i = a
      · subst hia
        by_cases hirest : i ∈ rest
        · simp [hirest]
        · simp [hirest, Function.update_same]
      · by_cases hirest : i ∈ rest
        · simp [hirest, List.mem_cons, hia]
        · simp [hirest, List.mem_cons, hia, Function.update_noteq hia]

/-- Counterexample to claim C5, at the concrete run
`allLoadsFailRun`: every instrument finishes in loading state `error`
— none is `loaded`, so the claim's antecedent holds — yet the track IS
marked generated, because the success tally counts setup calls that
returned a chain object (which happens before the load settles), not
instruments that finished `loaded`.  The claimed conclusion
`isTrackGenerated` remains false is violated. -/
theorem zero_loaded_still_generated_counterexample :
    (allLoadsFailRun.instruments .drums).loadingState = LoadingState.error ∧
    (allLoadsFailRun.instruments .bass).loadingState = LoadingState.error ∧
    (allLoadsFailRun.instruments .guitar).loadingState = LoadingState.error ∧
    (allLoadsFailRun.instruments .keys).loadingState = LoadingState.error ∧
    allLoadsFailRun.isTrackGenerated = true := by
  exact ⟨rfl, rfl, rfl, rfl, rfl⟩

/-- Claim C5 as amended: if, during a `generateTrack` call starting
from the not-generated state, zero instruments' setups produce a chain
— the Sample Resolver yields no URL for any instrument and no path was
recorded — then on completion the shared error state is non-null,
`isTrackGenerated` remains false, and no instrument reports loading
state `loaded`.  (Zero instruments finishing `loaded` alone does not
imply this: when URLs resolve but every load fails, fallback chains
still count as successes and the track is marked generated, as the
counterexample shows.) -/
theorem generateTrack_zero_chain_hard_failure
    (s : OrchestratorState) (settings : TrackSettings) (mv : Option VolumeNode)
    (cid : Option Nat) (env : InstrumentType → SetupEnv)
    (hflag : s.generationInProgress = false)
    (hgen : s.isTrackGenerated = false)
    (hpaths : ∀ i, (s.instruments i).samplePath = none)
    (hres : ∀ i, (env i).resolved = none) :
    ¬ (generateTrack s settings mv cid env).error = none ∧
    (generateTrack s settings mv cid env).isTrackGenerated = false ∧
    ∀ i, ¬ ((generateTrack s settings mv cid env).instruments i).loadingState = .loaded := by
  obtain ⟨h1, h2, h3, h4⟩ := setupLoop_no_url mv cid env instrumentOrder
    ({ generationInProgress := true, playbackInProgress := s.playbackInProgress,
       isPlaying := false, isLoading := true, error := none,
       isTrackGenerated := s.isTrackGenerated, transportBpm := settings.bpm,
       settings := settings, instruments := fun i => teardownInstrument (s.instruments i),
       storage := s.storage } : OrchestratorState)
    (fun j _ => ⟨by simp [teardownInstrument, hpaths j], hres j⟩)
  have hmem : ∀ i : InstrumentType, i ∈ instrumentOrder := by
    intro i; cases i <;> simp [instrumentOrder]
  by_cases hp : s.isPlaying = true
  · simp only [generateTrack, hflag, hp]
    simp only [Bool.false_eq_true, if_false, if_true, reduceIte]
    refine ⟨?_, ?_, ?_⟩
    · simp [h1, h2]
    · simp only [h2, Bool.false_eq_true, if_false, reduceIte, h1]
      simpa [h3] using hgen
    · intro i
      simp only [h2, Bool.false_eq_true, if_false, reduceIte, h1]
      simp [h4 i, hmem i]
  · have hp2 : s.isPlaying = false := by simpa using hp
    simp only [generateTrack, hflag, hp2]
    simp only [Bool.false_eq_true, if_false, if_true, reduceIte]
    refine ⟨?_, ?_, ?_⟩
    · simp [h1, h2]
    · simp only [h2, Bool.false_eq_true, if_false, reduceIte, h1]
      simpa [h3] using hgen
    · intro i
      simp only [h2, Bool.false_eq_true, if_false, reduceIte, h1]
      simp [h4 i, hmem i]

/-- Witness for the amended C5 at the initial state with a resolver
that has no URL for any instrument. -/
theorem generateTrack_zero_chain_hard_failure_witness :
    ¬ (generateTrack
        { generationInProgress := false, playbackInProgress := false, isPlaying := false,
          isLoading := false, error := none, isTrackGenerated := false, transportBpm := 120,
          settings := { genre := "rock", mood := "energetic", bpm := 120, key := "C", duration := 16 },
          instruments := defaultInstrument, storage := fun _ => none }
        { genre := "jazz", mood := "dark", bpm := 90, key := "D", duration := 16 }
        none (some 0) (fun _ => ⟨none, 0, true, 0⟩)).error = none ∧
    (generateTrack
        { generationInProgress := false, playbackInProgress := false, isPlaying := false,
          isLoading := false, error := none, isTrackGenerated := false, transportBpm := 120,
          settings := { genre := "rock", mood := "energetic", bpm := 120, key := "C", duration := 16 },
          instruments := defaultInstrument, storage := fun _ => none }
        { genre := "jazz", mood := "dark", bpm := 90, key := "D", duration := 16 }
        none (some 0) (fun _ => ⟨none, 0, true, 0⟩)).isTrackGenerated = false ∧
    ∀ i, ¬ ((generateTrack
        { generationInProgress := false, playbackInProgress := false, isPlaying := false,
          isLoading := false, error := none, isTrackGenerated := false, transportBpm := 120,
          settings := { genre := "rock", mood := "energetic", bpm := 120, key := "C", duration := 16 },
          instruments := defaultInstrument, storage := fun _ => none }
        { genre := "jazz", mood := "dark", bpm := 90, key := "D", duration := 16 }
        none (some 0) (fun _ => ⟨none, 0, true, 0⟩)).instruments i).loadingState = .loaded :=
  generateTrack_zero_chain_hard_failure _ _ none (some 0) (fun _ => ⟨none, 0, true, 0⟩)
    rfl rfl (fun _ => rfl) (fun _ => rfl)

/-- Claim C9: with a live analyser, a tick's candidate value is the
clamped scaled root-mean-square of the waveform and always lies in
0..100; the published value changes only when the candidate differs
from the last published value by more than the 0.5 threshold or has
fallen below 1 while the published value was still positive (and then
it changes exactly to the candidate); with no analyser, a positive
published value is reset to exactly 0. -/
theorem meterTick_spec :
    (∀ w : List ℝ, 0 ≤ meterValueOfWaveform w ∧ meterValueOfWaveform w ≤ 100) ∧
    (∀ inst : MeterInstrument, ∀ w : List ℝ, inst.analyser = some w →
      ((meterTick inst).meterValue = meterValueOfWaveform w ∨
        (meterTick inst).meterValue = inst.meterValue) ∧
      (¬ (meterTick inst).meterValue = inst.meterValue →
        ((1 : ℝ) / 2 < |inst.meterValue - meterValueOfWaveform w| ∨
          (meterValueOfWaveform w < 1 ∧ 0 < inst.meterValue)) ∧
        (meterTick inst).meterValue = meterValueOfWaveform w)) ∧
    (∀ inst : MeterInstrument, inst.analyser = none → 0 < inst.meterValue →
      (meterTick inst).meterValue = 0) := by
  refine ⟨?_, ?_, ?_⟩
  · intro w
    unfold meterValueOfWaveform
    exact ⟨le_min (by norm_num) (le_max_left _ _), min_le_left _ _⟩
  · intro inst w h
    simp only [meterTick, h]
    split
    · rename_i hcond
      exact ⟨Or.inl rfl, fun _ => ⟨hcond, rfl⟩⟩
    · exact ⟨Or.inr rfl, fun hne => absurd rfl hne⟩
  · intro inst h hpos
    simp only [meterTick, h]
    rw [if_pos hpos]

/-- Witness for C9: a full-scale waveform read against a silent meter
publishes the new value, and a torn-down tap at a positive published
value resets to 0. -/
theorem meterTick_spec_witness :
    ((meterTick { analyser := some [1], meterValue := 0 }).meterValue =
        meterValueOfWaveform [1] ∨
      (meterTick { analyser := some [1], meterValue := 0 }).meterValue =
        ({ analyser := some [1], meterValue := 0 } : MeterInstrument).meterValue) ∧
    (meterTick { analyser := none, meterValue := 5 }).meterValue = 0 :=
  ⟨(meterTick_spec.2.1 { analyser := some [1], meterValue := 0 } [1] rfl).1,
   meterTick_spec.2.2 { analyser := none, meterValue := 5 } rfl (by norm_num)⟩

end TrackAlchemy
